import Mathlib

/- Shallow embedding of the bitwise-io library (src/lib.rs): a bit-granularity
reader over a byte source and a bit-granularity writer over a byte sink,
together with the Bit unit type and its numeric/boolean conversions.

Modelling conventions:
* machine integers are Nat (unsigned types) and Int (signed types); all the
  operations involved here (comparison with 0, shift by at most 7, bitwise
  and/or on byte values) never overflow, so no modular reduction is needed;
* the byte source is the standard in-memory reader over a byte slice
  (a BufRead over a byte buffer): fill_buf returns all remaining bytes and
  never fails, consume n drops n bytes; hence the fallible source paths of
  the original never produce errors and are elided;
* the byte sink is modelled with explicit outcome oracles so that short
  writes (Ok with a count below the length passed) and write/flush failures
  can be injected; an empty oracle list means the always-succeeding,
  accept-everything in-memory sink;
* in-place mutation becomes explicit state passing: a fallible operation on
  a component returns the operation result paired with the new state. -/

namespace BitwiseIo

/- Bit representation: enum Bit { Zero = 0, One = 1 }. -/
inductive Bit where
  | Zero
  | One
  deriving DecidableEq

/- `bit as u8` (the discriminant values of the enum). -/
def Bit.toNat : Bit → Nat
  | Bit.Zero => 0
  | Bit.One => 1

/- impl From for Bit, unsigned types: `if value > 0 { One } else { Zero }`. -/
def Bit.fromU8 (value : Nat) : Bit := if value > 0 then Bit.One else Bit.Zero

def Bit.fromU16 (value : Nat) : Bit := if value > 0 then Bit.One else Bit.Zero

def Bit.fromU32 (value : Nat) : Bit := if value > 0 then Bit.One else Bit.Zero

def Bit.fromU64 (value : Nat) : Bit := if value > 0 then Bit.One else Bit.Zero

def Bit.fromUsize (value : Nat) : Bit := if value > 0 then Bit.One else Bit.Zero

/- impl From for Bit, signed types: same source text `if value > 0`, over Int. -/
def Bit.fromI8 (value : Int) : Bit := if value > 0 then Bit.One else Bit.Zero

def Bit.fromI16 (value : Int) : Bit := if value > 0 then Bit.One else Bit.Zero

def Bit.fromI32 (value : Int) : Bit := if value > 0 then Bit.One else Bit.Zero

def Bit.fromI64 (value : Int) : Bit := if value > 0 then Bit.One else Bit.Zero

/- impl From bool for Bit. -/
def Bit.fromBool : Bool → Bit
  | false => Bit.Zero
  | true => Bit.One

/- In-memory byte source (a byte slice used through the BufRead interface):
holds the remaining bytes. -/
structure ByteSource where
  data : List Nat
  deriving DecidableEq

/- fill_buf on a byte slice: returns everything remaining, never fails. -/
def ByteSource.fill_buf (s : ByteSource) : List Nat := s.data

/- consume(amt) on a byte slice: drops amt bytes. -/
def ByteSource.consume (s : ByteSource) (amt : Nat) : ByteSource :=
  { data := s.data.drop amt }

/- Possible failures of a read step.  The source builds an End-of-File error
when the buffer is empty (endOfFile); the indexing `self.buf[byte_offset]`
panics when the index is out of range (indexOutOfRange). -/
inductive ReadError where
  | endOfFile
  | indexOutOfRange
  deriving DecidableEq

/- struct BitReader: owned snapshot buffer, bit position, first-read flag. -/
structure BitReader where
  inner : ByteSource
  buf : List Nat
  pos : Nat
  init_read : Bool
  deriving DecidableEq

/- BitReader::new — eagerly fills buf from the source (`inner.fill_buf()?`,
infallible for the in-memory source). -/
def BitReader.new (inner : ByteSource) : BitReader :=
  { inner := inner, buf := inner.fill_buf, pos := 0, init_read := false }

/- reader_fill_buf: `inner.consume(buf.len()); buf = inner.fill_buf()`. -/
def reader_fill_buf (reader : BitReader) : BitReader :=
  let inner := reader.inner.consume reader.buf.length
  { reader with inner := inner, buf := inner.fill_buf }

/- reader_update: refill (and reset pos) when byte_offset reaches the buffer
length, otherwise keep byte_offset. -/
def reader_update (reader : BitReader) (byte_offset : Nat) : BitReader × Nat :=
  if byte_offset ≥ reader.buf.length then
    let r := reader_fill_buf reader
    ({ r with pos := 0 }, 0)
  else
    (reader, byte_offset)

/- BitReader::is_empty. -/
def BitReader.is_empty (self : BitReader) : Bool := self.buf.isEmpty

/- BitReader::buf_len. -/
def BitReader.buf_len (self : BitReader) : Nat := self.buf.length

/- BitReader::read.  Faithful to the source:
* `init_read` is never assigned anywhere in the crate, so the
  `if self.init_read == false` refill runs on every call;
* the empty check `if self.is_empty() { Err(..) }` has no `return` (as
  written it is not even well-typed Rust, error E0317): the error value is
  built and discarded and execution falls through, so an empty buffer leads
  to the out-of-range indexing `self.buf[byte_offset]`, modelled as
  `Except.error ReadError.indexOutOfRange`, never to a returned End-of-File. -/
def BitReader.read (self0 : BitReader) : Except ReadError (Bit × BitReader) :=
  let self := if self0.init_read = false then reader_fill_buf self0 else self0
  let byte_offset := self.pos / 8
  let bit_offset := self.pos % 8
  match self.buf.get? byte_offset with
  | none => Except.error ReadError.indexOutOfRange
  | some byte =>
    let mask := 1 <<< (7 - bit_offset)
    let bit := Bit.fromU8 (byte &&& mask)
    if bit_offset + 1 > 7 then
      let su := reader_update self (byte_offset + 1)
      Except.ok (bit, { su.1 with pos := su.2 * 8 + 0 })
    else
      Except.ok (bit, { self with pos := byte_offset * 8 + (bit_offset + 1) })

/- BitReader::read_multi — n sequential reads, first failure wins. -/
def BitReader.read_multi : BitReader → Nat → Except ReadError (List Bit × BitReader)
  | self, 0 => Except.ok ([], self)
  | self, n + 1 =>
    match self.read with
    | Except.ok bs =>
      match bs.2.read_multi n with
      | Except.ok rest => Except.ok (bs.1 :: rest.1, rest.2)
      | Except.error e => Except.error e
    | Except.error e => Except.error e

/- Byte sink (the Write side): `written` is what the sink has accepted so
far; `writeOutcomes` and `flushOutcomes` are oracles giving the result of
each successive write / flush call (exhausted oracle = always succeed,
accept everything: the in-memory Vec sink). -/
structure ByteSink where
  written : List Nat
  writeOutcomes : List (Option Nat)
  flushOutcomes : List Bool
  deriving DecidableEq

/- Sink write: Ok k means the sink accepted the first k bytes (a short write
when k is below the length passed); none means an I/O error. -/
def ByteSink.write (s : ByteSink) (bytes : List Nat) : Except Unit Nat × ByteSink :=
  match s.writeOutcomes with
  | [] => (Except.ok bytes.length, { s with written := s.written ++ bytes })
  | Option.none :: rest => (Except.error (), { s with writeOutcomes := rest })
  | Option.some k :: rest =>
    (Except.ok k, { s with written := s.written ++ bytes.take k, writeOutcomes := rest })

/- Sink flush. -/
def ByteSink.flush (s : ByteSink) : Except Unit Unit × ByteSink :=
  match s.flushOutcomes with
  | [] => (Except.ok (), s)
  | true :: rest => (Except.ok (), { s with flushOutcomes := rest })
  | false :: rest => (Except.error (), { s with flushOutcomes := rest })

/- const DEFAULT_BUF_SIZE: usize = 1024. -/
def DEFAULT_BUF_SIZE : Nat := 1024

/- struct BitWriter: sink, pending-bit queue (head = front of the VecDeque),
pad policy flag. -/
structure BitWriter where
  inner : ByteSink
  buf : List Bit
  pad_zero : Bool
  deriving DecidableEq

/- BitWriter::with_capacity — the capacity only presizes the VecDeque
(capacity * 8 bit slots) and has no semantic effect. -/
def BitWriter.with_capacity (_capacity : Nat) (inner : ByteSink) (pad_zero : Bool) : BitWriter :=
  { inner := inner, buf := [], pad_zero := pad_zero }

/- BitWriter::new. -/
def BitWriter.new (inner : ByteSink) (pad_zero : Bool) : BitWriter :=
  BitWriter.with_capacity DEFAULT_BUF_SIZE inner pad_zero

/- writer_pad_buf: pad_bit is Zero when pad_zero else One; the loop bound
`0..(writer.buf.len() % 8)` is evaluated once, so exactly len % 8 copies of
pad_bit are appended (the source pushes len % 8 bits, not 8 - len % 8). -/
def writer_pad_buf (writer : BitWriter) : BitWriter :=
  let pad_bit := if writer.pad_zero then Bit.Zero else Bit.One
  { writer with buf := writer.buf ++ List.replicate (writer.buf.length % 8) pad_bit }

/- The `while writer.buf.len() >= 8` loop of writer_buf_to_bytes: take 8 bits
at a time, assemble them with `byte |= bit as u8; if i < 7 { byte <<= 1 }`,
and return the assembled bytes together with the leftover (< 8) bits. -/
def drain_bytes : List Bit → List Nat × List Bit
  | b0 :: b1 :: b2 :: b3 :: b4 :: b5 :: b6 :: b7 :: rest =>
    let byte :=
      (((((((0 ||| b0.toNat) <<< 1 ||| b1.toNat) <<< 1 ||| b2.toNat) <<< 1
        ||| b3.toNat) <<< 1 ||| b4.toNat) <<< 1 ||| b5.toNat) <<< 1
        ||| b6.toNat) <<< 1 ||| b7.toNat
    (byte :: (drain_bytes rest).1, (drain_bytes rest).2)
  | rem => ([], rem)

/- writer_buf_to_bytes: removes all complete bytes from the queue and
returns them; the remainder stays queued. -/
def writer_buf_to_bytes (writer : BitWriter) : List Nat × BitWriter :=
  ((drain_bytes writer.buf).1, { writer with buf := (drain_bytes writer.buf).2 })

/- BitWriter::write_buf: pad, drain to bytes, `inner.write(&bytes)` (the
returned byte count is ignored), then `inner.flush()` on success. -/
def BitWriter.write_buf (self : BitWriter) : Except Unit Unit × BitWriter :=
  let w := writer_pad_buf self
  let bytes := (writer_buf_to_bytes w).1
  let w2 := (writer_buf_to_bytes w).2
  match w2.inner.write bytes with
  | (Except.ok _, s) =>
    match s.flush with
    | (Except.ok _, s2) => (Except.ok (), { w2 with inner := s2 })
    | (Except.error e, s2) => (Except.error e, { w2 with inner := s2 })
  | (Except.error e, s) => (Except.error e, { w2 with inner := s })

/- BitWriter::write: flush first when the queue length equals
DEFAULT_BUF_SIZE (1024 — compared against the bit count), append the bit
only on success; otherwise just append. -/
def BitWriter.write (self : BitWriter) (bit : Bit) : Except Unit Unit × BitWriter :=
  if self.buf.length = DEFAULT_BUF_SIZE then
    match self.write_buf with
    | (Except.ok _, s) => (Except.ok (), { s with buf := s.buf ++ [bit] })
    | (Except.error e, s) => (Except.error e, s)
  else
    (Except.ok (), { self with buf := self.buf ++ [bit] })

/- BitWriter::write_bits — sequential writes, first failure wins. -/
def BitWriter.write_bits : BitWriter → List Bit → Except Unit Unit × BitWriter
  | self, [] => (Except.ok (), self)
  | self, bit :: rest =>
    match self.write bit with
    | (Except.ok _, s) => s.write_bits rest
    | (Except.error e, s) => (Except.error e, s)

/- BitWriter::is_empty. -/
def BitWriter.is_empty (self : BitWriter) : Bool := self.buf.isEmpty

/- BitWriter::buf_len. -/
def BitWriter.buf_len (self : BitWriter) : Nat := self.buf.length

/- The full write pipeline on a fresh writer over the in-memory Vec sink:
write the given bits one by one, force write_buf, and return the byte
sequence the sink received. -/
def emitted (pad_zero : Bool) (bits : List Bit) : List Nat :=
  let w := BitWriter.new { written := [], writeOutcomes := [], flushOutcomes := [] } pad_zero
  let w := (w.write_bits bits).2
  ((w.write_buf).2).inner.written

/- ------------------------------------------------------------------ -/
/- Theorems                                                           -/
/- ------------------------------------------------------------------ -/

/-- C1 (code_bug evaluation): the round-trip fails on the code.  Writing the
single bit One with pad_zero = true and forcing write_buf emits NO bytes at
all (writer_pad_buf appends len % 8 = 1 bit instead of 7, so the queue
never reaches a byte boundary and the drain produces nothing), and reading
ceil(1/8)*8 = 8 bits back from the produced byte sequence fails with an
out-of-range indexing instead of yielding [One] followed by 7 Zero bits. -/
theorem C1_roundtrip_broken :
    emitted true [Bit.One] = [] ∧
    (BitReader.new ⟨emitted true [Bit.One]⟩).read_multi 8 =
      Except.error ReadError.indexOutOfRange :=
  ⟨rfl, rfl⟩

/-- C2 (code_bug evaluation): for queue length L = 1 at write_buf time the
padding step appends only L % 8 = 1 bit (a Zero, since pad_zero = true), so
the padded queue has length 2, which is not a multiple of 8; the subsequent
drain therefore produces no byte and leaves the whole queue behind, instead
of emptying it into ceil(1/8) = 1 byte. -/
theorem C2_padding_not_byte_aligned :
    (writer_pad_buf ⟨⟨[], [], []⟩, [Bit.One], true⟩).buf = [Bit.One, Bit.Zero] ∧
    (2 : Nat) % 8 ≠ 0 ∧
    (writer_buf_to_bytes (writer_pad_buf ⟨⟨[], [], []⟩, [Bit.One], true⟩)).1 = [] ∧
    (writer_buf_to_bytes (writer_pad_buf ⟨⟨[], [], []⟩, [Bit.One], true⟩)).2.buf =
      [Bit.One, Bit.Zero] :=
  ⟨rfl, by decide, rfl, rfl⟩

/-- C3 (code_bug evaluation): over the one-byte source 0x80 the FIRST read()
already fails with out-of-range indexing instead of returning One: because
init_read is never set to true, the read refills first, which consumes the
construction snapshot (the whole source) and replaces the buffer by the now
empty remainder; the discarded empty-buffer check then falls through into
the indexing of the empty buffer. -/
theorem C3_first_read_out_of_range :
    (BitReader.new ⟨[0x80]⟩).read = Except.error ReadError.indexOutOfRange :=
  rfl

set_option maxRecDepth 100000 in
/-- C4 counterexample: the automatic flush does NOT trigger at queue length
8192; it triggers at queue length 1024 (DEFAULT_BUF_SIZE compared against
the bit count).  With a queue of 1024 bits — strictly below 8192 — and a
sink whose next write fails, write() performs I/O and surfaces the failure,
refuting both the claimed trigger point and the claim that every smaller
queue length appends with no I/O performed. -/
theorem C4_threshold_counterexample :
    ((⟨⟨[], [Option.none], []⟩, List.replicate 1024 Bit.Zero, true⟩ : BitWriter).write
        Bit.One).1 = Except.error () ∧
    (1024 : Nat) < 8192 :=
  ⟨rfl, by decide⟩

/-- C4 (amended): BitWriter::write(bit) triggers the automatic flush (a call
to write_buf) exactly when the pending queue length equals DEFAULT_BUF_SIZE
= 1024 bits (128 bytes' worth of bits, not 8192) before appending; for
every other queue length the bit is appended with no I/O performed (the
sink state is untouched and the call succeeds). -/
theorem C4_flush_threshold (w : BitWriter) (bit : Bit) :
    DEFAULT_BUF_SIZE = 1024 ∧
    (w.buf.length ≠ 1024 →
      w.write bit = (Except.ok (), { w with buf := w.buf ++ [bit] })) ∧
    (w.buf.length = 1024 →
      (w.write bit).2.inner = (w.write_buf).2.inner ∧
      (w.write bit).1 = (w.write_buf).1) := by
  refine ⟨rfl, ?_, ?_⟩
  · intro h
    simp only [BitWriter.write, DEFAULT_BUF_SIZE, if_neg h]
  · intro h
    rcases hw : w.write_buf with ⟨res, s⟩
    cases res with
    | ok u =>
      cases u
      simp only [BitWriter.write, DEFAULT_BUF_SIZE, if_pos h, hw]
      constructor <;> trivial
    | error e =>
      cases e
      simp only [BitWriter.write, DEFAULT_BUF_SIZE, if_pos h, hw]
      constructor <;> trivial

set_option maxRecDepth 100000 in
/-- C4 witness: the amended threshold theorem applied to a fresh writer
(queue length 0, bit appended with no I/O) and to a writer holding exactly
1024 queued bits (flush triggered, same sink state and result as
write_buf). -/
theorem C4_flush_threshold_witness :
    ((BitWriter.new ⟨[], [], []⟩ true).write Bit.One =
      (Except.ok (), { BitWriter.new ⟨[], [], []⟩ true with
                        buf := (BitWriter.new ⟨[], [], []⟩ true).buf ++ [Bit.One] })) ∧
    (((⟨⟨[], [Option.none], []⟩, List.replicate 1024 Bit.Zero, true⟩ : BitWriter).write
        Bit.One).1 =
      ((⟨⟨[], [Option.none], []⟩, List.replicate 1024 Bit.Zero, true⟩ : BitWriter).write_buf).1) :=
  ⟨(C4_flush_threshold (BitWriter.new ⟨[], [], []⟩ true) Bit.One).2.1 (by decide),
   ((C4_flush_threshold
      (⟨⟨[], [Option.none], []⟩, List.replicate 1024 Bit.Zero, true⟩ : BitWriter)
      Bit.One).2.2 (by simp)).2⟩

/-- C5 (code_bug evaluation): a freshly constructed BitReader over the
non-empty source 0x80 has is_empty() = false, because BitReader::new
eagerly fills the snapshot from the source, contradicting the claim (and
the doc comments of new and is_empty in the source) that the buffer is not
filled on create and is_empty is always true right after construction. -/
theorem C5_fresh_reader_not_empty :
    (BitReader.new ⟨[0x80]⟩).is_empty = false ∧
    ((BitReader.new ⟨[]⟩).is_empty = true) :=
  ⟨rfl, rfl⟩

/-- C6 (code_bug evaluation): with an empty snapshot — here a BitReader over
an empty source — read() does NOT return an end-of-stream error: the
emptiness check builds the End-of-File error but lacks a return, so the
value is discarded and execution falls through to the out-of-range indexing
of the empty buffer. -/
theorem C6_empty_read_out_of_range :
    (BitReader.new ⟨[]⟩).read = Except.error ReadError.indexOutOfRange ∧
    ReadError.indexOutOfRange ≠ ReadError.endOfFile :=
  ⟨rfl, by decide⟩

/-- C7 (confirmed): when write(bit) triggers the automatic flush (queue
length equal to DEFAULT_BUF_SIZE before appending), a failed flush leaves
the writer exactly in the post-write_buf state with the bit NOT appended
and returns the flush error; a successful flush appends the bit afterwards.
In both cases the final state is that of a single write_buf call, and for
any other queue length no flush happens at all, so no write call ever
performs more than one flush. -/
theorem C7_flush_failure_coupling (w : BitWriter) (bit : Bit) :
    (w.buf.length ≠ DEFAULT_BUF_SIZE →
      w.write bit = (Except.ok (), { w with buf := w.buf ++ [bit] })) ∧
    (w.buf.length = DEFAULT_BUF_SIZE →
      ((w.write_buf).1 = Except.error () →
        w.write bit = (Except.error (), (w.write_buf).2)) ∧
      ((w.write_buf).1 = Except.ok () →
        w.write bit =
          (Except.ok (), { (w.write_buf).2 with
                            buf := (w.write_buf).2.buf ++ [bit] }))) := by
  constructor
  · intro h
    simp only [BitWriter.write, if_neg h]
  · intro h
    rcases hw : w.write_buf with ⟨res, s⟩
    cases res with
    | ok u =>
      cases u
      constructor
      · intro herr
        exact absurd herr (by simp)
      · intro _
        simp only [BitWriter.write, if_pos h, hw]
    | error e =>
      cases e
      constructor
      · intro _
        simp only [BitWriter.write, if_pos h, hw]
      · intro hok
        exact absurd hok (by simp)

set_option maxRecDepth 100000 in
/-- C7 witness: the coupling theorem applied to a fresh writer (no flush),
to a 1024-bit writer over a sink whose write fails (error returned, bit not
appended), and to a 1024-bit writer over the plain in-memory sink (flush
succeeds, bit appended afterwards). -/
theorem C7_flush_failure_coupling_witness :
    ((BitWriter.new ⟨[], [], []⟩ false).write Bit.Zero =
      (Except.ok (), { BitWriter.new ⟨[], [], []⟩ false with
                        buf := (BitWriter.new ⟨[], [], []⟩ false).buf ++ [Bit.Zero] })) ∧
    ((⟨⟨[], [Option.none], []⟩, List.replicate 1024 Bit.One, true⟩ : BitWriter).write
        Bit.Zero =
      (Except.error (),
       ((⟨⟨[], [Option.none], []⟩, List.replicate 1024 Bit.One, true⟩ : BitWriter).write_buf).2)) ∧
    ((⟨⟨[], [], []⟩, List.replicate 1024 Bit.One, true⟩ : BitWriter).write Bit.Zero =
      (Except.ok (),
       { ((⟨⟨[], [], []⟩, List.replicate 1024 Bit.One, true⟩ : BitWriter).write_buf).2 with
         buf := ((⟨⟨[], [], []⟩, List.replicate 1024 Bit.One, true⟩ : BitWriter).write_buf).2.buf
                  ++ [Bit.Zero] })) :=
  ⟨(C7_flush_failure_coupling (BitWriter.new ⟨[], [], []⟩ false) Bit.Zero).1 (by decide),
   ((C7_flush_failure_coupling
      (⟨⟨[], [Option.none], []⟩, List.replicate 1024 Bit.One, true⟩ : BitWriter)
      Bit.Zero).2 (by simp [DEFAULT_BUF_SIZE])).1 (by rfl),
   ((C7_flush_failure_coupling
      (⟨⟨[], [], []⟩, List.replicate 1024 Bit.One, true⟩ : BitWriter)
      Bit.Zero).2 (by simp [DEFAULT_BUF_SIZE])).2 (by rfl)⟩

/-- C8 counterexample: converting the negative value -1 through the i8
conversion yields Zero, not One as the claim states for nonzero signed
values (the source tests value > 0, sending every non-positive value to
Zero). -/
theorem C8_negative_counterexample :
    Bit.fromI8 (-1) = Bit.Zero ∧ Bit.Zero ≠ Bit.One :=
  ⟨by decide, by decide⟩

/-- C8 (amended): for every supported unsigned numeric type, converting 0
yields Zero and converting any nonzero value yields One; for every signed
type, converting 0 yields Zero, any positive value yields One, and any
negative value yields Zero; boolean false yields Zero and true yields
One. -/
theorem C8_conversions_amended (n : Nat) (z : Int) :
    (Bit.fromU8 0 = Bit.Zero ∧ (0 < n → Bit.fromU8 n = Bit.One)) ∧
    (Bit.fromU16 0 = Bit.Zero ∧ (0 < n → Bit.fromU16 n = Bit.One)) ∧
    (Bit.fromU32 0 = Bit.Zero ∧ (0 < n → Bit.fromU32 n = Bit.One)) ∧
    (Bit.fromU64 0 = Bit.Zero ∧ (0 < n → Bit.fromU64 n = Bit.One)) ∧
    (Bit.fromUsize 0 = Bit.Zero ∧ (0 < n → Bit.fromUsize n = Bit.One)) ∧
    (Bit.fromI8 0 = Bit.Zero ∧ (0 < z → Bit.fromI8 z = Bit.One) ∧
      (z < 0 → Bit.fromI8 z = Bit.Zero)) ∧
    (Bit.fromI16 0 = Bit.Zero ∧ (0 < z → Bit.fromI16 z = Bit.One) ∧
      (z < 0 → Bit.fromI16 z = Bit.Zero)) ∧
    (Bit.fromI32 0 = Bit.Zero ∧ (0 < z → Bit.fromI32 z = Bit.One) ∧
      (z < 0 → Bit.fromI32 z = Bit.Zero)) ∧
    (Bit.fromI64 0 = Bit.Zero ∧ (0 < z → Bit.fromI64 z = Bit.One) ∧
      (z < 0 → Bit.fromI64 z = Bit.Zero)) ∧
    (Bit.fromBool false = Bit.Zero ∧ Bit.fromBool true = Bit.One) := by
  refine ⟨⟨rfl, fun h => ?_⟩, ⟨rfl, fun h => ?_⟩, ⟨rfl, fun h => ?_⟩,
          ⟨rfl, fun h => ?_⟩, ⟨rfl, fun h => ?_⟩,
          ⟨rfl, fun h => ?_, fun h => ?_⟩, ⟨rfl, fun h => ?_, fun h => ?_⟩,
          ⟨rfl, fun h => ?_, fun h => ?_⟩, ⟨rfl, fun h => ?_, fun h => ?_⟩,
          rfl, rfl⟩ <;>
    first
      | (simp only [Bit.fromU8, Bit.fromU16, Bit.fromU32, Bit.fromU64, Bit.fromUsize,
            Bit.fromI8, Bit.fromI16, Bit.fromI32, Bit.fromI64]
         rw [if_pos h])
      | (simp only [Bit.fromI8, Bit.fromI16, Bit.fromI32, Bit.fromI64]
         rw [if_neg (by omega)])

/-- C8 witness: the amended conversion theorem applied at the nonzero
unsigned value 1, the positive signed value 1 and the negative signed value
-1. -/
theorem C8_conversions_amended_witness :
    Bit.fromU8 1 = Bit.One ∧ Bit.fromI8 1 = Bit.One ∧ Bit.fromI8 (-2) = Bit.Zero :=
  ⟨(C8_conversions_amended 1 1).1.2 (by decide),
   ((C8_conversions_amended 1 1).2.2.2.2.2.1).2.1 (by decide),
   ((C8_conversions_amended 1 (-2)).2.2.2.2.2.1).2.2 (by decide)⟩

/-- C9 (confirmed): each group of 8 queued bits, taken in insertion order,
is assembled into one byte with the first bit in the most significant
position and the eighth in the least significant position; in particular
the full write-and-flush pipeline emits 0x80 for [One, Zero x 7] and 0x01
for [Zero x 7, One]. -/
theorem C9_byte_assembly_order (b0 b1 b2 b3 b4 b5 b6 b7 : Bit) (rest : List Bit) :
    drain_bytes (b0 :: b1 :: b2 :: b3 :: b4 :: b5 :: b6 :: b7 :: rest) =
      ((b0.toNat * 128 + b1.toNat * 64 + b2.toNat * 32 + b3.toNat * 16 +
        b4.toNat * 8 + b5.toNat * 4 + b6.toNat * 2 + b7.toNat) ::
          (drain_bytes rest).1,
       (drain_bytes rest).2) ∧
    emitted true [Bit.One, Bit.Zero, Bit.Zero, Bit.Zero,
                  Bit.Zero, Bit.Zero, Bit.Zero, Bit.Zero] = [0x80] ∧
    emitted true [Bit.Zero, Bit.Zero, Bit.Zero, Bit.Zero,
                  Bit.Zero, Bit.Zero, Bit.Zero, Bit.One] = [0x01] := by
  refine ⟨?_, rfl, rfl⟩
  cases b0 <;> cases b1 <;> cases b2 <;> cases b3 <;>
    cases b4 <;> cases b5 <;> cases b6 <;> cases b7 <;> rfl

/-- C10 (confirmed): when the sink accepts the drained bytes with a short
count k (fewer bytes than passed) and the flush succeeds, write_buf still
reports success; the returned byte count is never inspected, so the bytes
beyond the first k are lost without any error being surfaced. -/
theorem C10_short_write_accepted (w : BitWriter) (k : Nat) (rest : List (Option Nat))
    (h1 : w.inner.writeOutcomes = Option.some k :: rest)
    (h2 : w.inner.flushOutcomes = [])
    (_h3 : k < (writer_buf_to_bytes (writer_pad_buf w)).1.length) :
    (w.write_buf).1 = Except.ok () ∧
    (w.write_buf).2.inner.written =
      w.inner.written ++ ((writer_buf_to_bytes (writer_pad_buf w)).1.take k) := by
  have hinner : (writer_buf_to_bytes (writer_pad_buf w)).2.inner = w.inner := rfl
  simp only [BitWriter.write_buf, ByteSink.write, ByteSink.flush, hinner, h1, h2]
  constructor <;> trivial

/-- C10 witness: a writer holding 8 One bits over a sink that reports
success while accepting 0 of the 1 drained byte (0xFF): write_buf reports
success and the sink retains nothing. -/
theorem C10_short_write_witness :
    ((⟨⟨[], [Option.some 0], []⟩, List.replicate 8 Bit.One, true⟩ : BitWriter).write_buf).1 =
      Except.ok () ∧
    ((⟨⟨[], [Option.some 0], []⟩, List.replicate 8 Bit.One, true⟩ : BitWriter).write_buf).2.inner.written =
      [] :=
  C10_short_write_accepted
    (⟨⟨[], [Option.some 0], []⟩, List.replicate 8 Bit.One, true⟩ : BitWriter)
    0 [] rfl rfl (by decide)

end BitwiseIo
